import Mathlib

/-!
# GestureMouse — verification of the gesture core

Shallow embedding of the repository's core modules:

* `src/core/gesture_detector.py` — `GestureState`, `GestureDetector.detect_gesture`
* `src/core/mouse_controller.py` — `MouseController.map_to_screen`
* `src/utils/smoothing.py` — the four filters (EMA, moving average, One-Euro, Kalman)
* `src/core/hand_tracker.py` — `HandLandmarks` (landmark access and distances)

Python floats are modelled as rationals (`ℚ`).  The Euclidean norm taken by
`HandLandmarks.get_distance` involves a square root, which `ℚ` is not closed
under; the square-root function is therefore kept abstract as a parameter
`rsqrt : ℚ → ℚ` threaded through the detector.  Every theorem below holds for
an arbitrary `rsqrt` (in particular for the real square root); concrete
witnesses instantiate it with `witSqrt`, which agrees with the real square
root on the squared distances the witness hands produce.
-/

namespace GestureMouse

/-- `GestureType` enum of `gesture_detector.py` (lines 17-24). -/
inductive GestureType where
  | NONE
  | CURSOR_MOVE
  | LEFT_CLICK
  | RIGHT_CLICK
  | SCROLL
  | DRAG
  deriving DecidableEq, Repr

/-- The `gesture_data` dictionary returned by `detect_gesture`: the keys that
can occur are `position`, `velocity` and `delta_y`; an absent key is `none`. -/
structure GData where
  position : Option (ℚ × ℚ) := none
  velocity : Option ℚ := none
  delta_y : Option ℚ := none
  deriving DecidableEq, Repr

/-- `HandLandmarks` of `hand_tracker.py`: the 21 extracted `(x, y, z)` points
plus the handedness tag. -/
structure HandLandmarks where
  points : List (ℚ × ℚ × ℚ)
  handedness : String
  deriving DecidableEq, Repr

namespace HandLandmarks

/-- MediaPipe landmark index constants (`hand_tracker.py` lines 22-42). -/
def WRIST : ℕ := 0

def THUMB_MCP : ℕ := 2

def THUMB_TIP : ℕ := 4

def INDEX_FINGER_PIP : ℕ := 6

def INDEX_FINGER_TIP : ℕ := 8

def MIDDLE_FINGER_MCP : ℕ := 9

def MIDDLE_FINGER_PIP : ℕ := 10

def MIDDLE_FINGER_TIP : ℕ := 12

def RING_FINGER_PIP : ℕ := 14

def RING_FINGER_TIP : ℕ := 16

def PINKY_PIP : ℕ := 18

def PINKY_TIP : ℕ := 20

/-- `get_landmark` (`hand_tracker.py` lines 60-72): the point at `index`, or
the defensive default `(0, 0, 0)` when the index is out of range. -/
def get_landmark (h : HandLandmarks) (index : ℕ) : ℚ × ℚ × ℚ :=
  h.points.getD index (0, 0, 0)

/-- `get_distance` (`hand_tracker.py` lines 74-87): Euclidean norm of the 3-D
difference of two landmarks, with the square root abstracted as `rsqrt`. -/
def get_distance (rsqrt : ℚ → ℚ) (h : HandLandmarks) (index1 index2 : ℕ) : ℚ :=
  let p1 := h.get_landmark index1
  let p2 := h.get_landmark index2
  rsqrt ((p1.1 - p2.1) ^ 2 + (p1.2.1 - p2.2.1) ^ 2 + (p1.2.2 - p2.2.2) ^ 2)

/-- Hand-size reference: `get_distance(WRIST, MIDDLE_FINGER_MCP)`
(`gesture_detector.py` lines 107-108). -/
def hand_size (rsqrt : ℚ → ℚ) (h : HandLandmarks) : ℚ :=
  h.get_distance rsqrt WRIST MIDDLE_FINGER_MCP

/-- Normalized thumb-index distance (`gesture_detector.py` lines 101-109):
raw distance over hand size, defaulting to `1.0` for a degenerate hand. -/
def thumb_index_dist_norm (rsqrt : ℚ → ℚ) (h : HandLandmarks) : ℚ :=
  if h.hand_size rsqrt > 0 then
    h.get_distance rsqrt THUMB_TIP INDEX_FINGER_TIP / h.hand_size rsqrt
  else 1

/-- Normalized thumb-middle distance (`gesture_detector.py` lines 103-110). -/
def thumb_middle_dist_norm (rsqrt : ℚ → ℚ) (h : HandLandmarks) : ℚ :=
  if h.hand_size rsqrt > 0 then
    h.get_distance rsqrt THUMB_TIP MIDDLE_FINGER_TIP / h.hand_size rsqrt
  else 1

end HandLandmarks

/-- A concrete square-root function used to instantiate the abstract `rsqrt`
in witnesses.  It agrees with the real square root on the two squared
distances that matter on the witness hands below (`(0.003)² ↦ 0.003` for the
pinched pair and `(0.1)² ↦ 0.1` for the hand size); elsewhere it returns `1`,
which on the witness hands keeps every other normalized distance at `10`,
far above the pinch threshold — the theorems hold for every `rsqrt`. -/
def witSqrt (q : ℚ) : ℚ :=
  if q = 9 / 1000000 then 3 / 1000
  else if q = 1 / 100 then 1 / 10
  else 1

/-! ## Filters (`src/utils/smoothing.py`) -/

/-- `ExponentialMovingAverage` (`smoothing.py` lines 11-42): smoothing factor
`alpha` and the optional running value (`None` when unseeded). -/
structure ExponentialMovingAverage where
  alpha : ℚ
  value : Option ℚ
  deriving DecidableEq, Repr

namespace ExponentialMovingAverage

/-- `__init__` (lines 14-22): `alpha` clamped to `[0, 1]`, value unseeded. -/
def init (alpha : ℚ) : ExponentialMovingAverage :=
  { alpha := max 0 (min 1 alpha), value := none }

/-- `update` (lines 24-38): seed on first call, otherwise
`alpha * new + (1 - alpha) * previous`.  Returns (returned value, new state). -/
def update (f : ExponentialMovingAverage) (new_value : ℚ) :
    ℚ × ExponentialMovingAverage :=
  match f.value with
  | none => (new_value, { f with value := some new_value })
  | some v =>
    let v' := f.alpha * new_value + (1 - f.alpha) * v
    (v', { f with value := some v' })

/-- `reset` (lines 40-42). -/
def reset (f : ExponentialMovingAverage) : ExponentialMovingAverage :=
  { f with value := none }

end ExponentialMovingAverage

/-- Append to a `collections.deque` with capacity `maxlen`: a full deque
discards its oldest element; a capacity-0 deque stays empty. -/
def dequeAppend (maxlen : ℕ) (l : List ℚ) (v : ℚ) : List ℚ :=
  if maxlen = 0 then []
  else if maxlen ≤ l.length then l.drop 1 ++ [v]
  else l ++ [v]

/-- `MovingAverageFilter` (`smoothing.py` lines 45-73).  `window_size` is the
clamped `max(1, window_size)` attribute; `maxlen` is the *raw* constructor
argument that sizes the deque (line 56 passes the unclamped value). -/
structure MovingAverageFilter where
  window_size : ℕ
  maxlen : ℕ
  values : List ℚ
  deriving DecidableEq, Repr

namespace MovingAverageFilter

/-- `__init__` (lines 48-56). -/
def init (window_size : ℕ) : MovingAverageFilter :=
  { window_size := max 1 window_size, maxlen := window_size, values := [] }

/-- `update` (lines 58-69): append, then return the mean of the window.
`none` models the `ZeroDivisionError` raised when the window is empty
(which happens exactly when the deque capacity is 0). -/
def update (f : MovingAverageFilter) (new_value : ℚ) :
    Option ℚ × MovingAverageFilter :=
  let values' := dequeAppend f.maxlen f.values new_value
  (if values'.length = 0 then none
   else some (values'.sum / (values'.length : ℚ)),
   { f with values := values' })

/-- `reset` (lines 71-73): clears the window, keeping the deque capacity. -/
def reset (f : MovingAverageFilter) : MovingAverageFilter :=
  { f with values := [] }

end MovingAverageFilter

/-- The IEEE-754 double closest to π: the exact rational value of `np.pi`. -/
def np_pi : ℚ := 884279719003555 / 281474976710656

/-- `OneEuroFilter` (`smoothing.py` lines 76-158). -/
structure OneEuroFilter where
  min_cutoff : ℚ
  beta : ℚ
  d_cutoff : ℚ
  x_prev : Option ℚ
  dx_prev : ℚ
  t_prev : Option ℚ
  deriving DecidableEq, Repr

namespace OneEuroFilter

/-- `__init__` (lines 83-101). -/
def init (min_cutoff beta d_cutoff : ℚ) : OneEuroFilter :=
  { min_cutoff := min_cutoff, beta := beta, d_cutoff := d_cutoff,
    x_prev := none, dx_prev := 0, t_prev := none }

/-- `_smoothing_factor` (lines 145-148): `r / (r + 1)` with
`r = 2 * np.pi * cutoff * dt`. -/
def smoothing_factor (dt cutoff : ℚ) : ℚ :=
  let r := 2 * np_pi * cutoff * dt
  r / (r + 1)

/-- `_exponential_smoothing` (lines 150-152). -/
def exponential_smoothing (alpha x x_prev : ℚ) : ℚ :=
  alpha * x + (1 - alpha) * x_prev

/-- The effective time delta (lines 120-122): `t - t_prev`, floored to the
epsilon `0.001` when non-positive. -/
def one_euro_dt (tp t : ℚ) : ℚ :=
  let dt := t - tp
  if dt ≤ 0 then 1 / 1000 else dt

/-- `update` (lines 103-143).  `none` models the `TypeError` Python would
raise if `t_prev` were `None` while `x_prev` is set — a state the class never
reaches, since `update` and `reset` write the two fields together. -/
def update (f : OneEuroFilter) (x t : ℚ) : Option (ℚ × OneEuroFilter) :=
  match f.x_prev with
  | none => some (x, { f with x_prev := some x, t_prev := some t })
  | some xp =>
    match f.t_prev with
    | none => none
    | some tp =>
      let dt := one_euro_dt tp t
      let dx := (x - xp) / dt
      let alpha_d := smoothing_factor dt f.d_cutoff
      let dx_smoothed := exponential_smoothing alpha_d dx f.dx_prev
      let cutoff := f.min_cutoff + f.beta * |dx_smoothed|
      let alpha := smoothing_factor dt cutoff
      let x_smoothed := exponential_smoothing alpha x xp
      some (x_smoothed,
        { f with x_prev := some x_smoothed, dx_prev := dx_smoothed,
                 t_prev := some t })

/-- `reset` (lines 154-158). -/
def reset (f : OneEuroFilter) : OneEuroFilter :=
  { f with x_prev := none, dx_prev := 0, t_prev := none }

/-- Drive `update` over a whole `(value, timestamp)` stream, failing if any
single update fails. -/
def run (f : OneEuroFilter) : List (ℚ × ℚ) → Option (List ℚ × OneEuroFilter)
  | [] => some ([], f)
  | (x, t) :: rest =>
    match f.update x t with
    | none => none
    | some (y, f') =>
      match f'.run rest with
      | none => none
      | some (ys, f'') => some (y :: ys, f'')

end OneEuroFilter

/-- `KalmanFilter` (`smoothing.py` lines 161-208). -/
structure KalmanFilter where
  process_variance : ℚ
  measurement_variance : ℚ
  estimate : Option ℚ
  error_estimate : ℚ
  deriving DecidableEq, Repr

namespace KalmanFilter

/-- `__init__` (lines 164-178). -/
def init (process_variance measurement_variance : ℚ) : KalmanFilter :=
  { process_variance := process_variance,
    measurement_variance := measurement_variance,
    estimate := none, error_estimate := 1 }

/-- `update` (lines 180-203). -/
def update (f : KalmanFilter) (measurement : ℚ) : ℚ × KalmanFilter :=
  match f.estimate with
  | none => (measurement, { f with estimate := some measurement })
  | some est =>
    let prediction := est
    let error_prediction := f.error_estimate + f.process_variance
    let kalman_gain := error_prediction / (error_prediction + f.measurement_variance)
    let estimate := prediction + kalman_gain * (measurement - prediction)
    (estimate,
     { f with estimate := some estimate,
              error_estimate := (1 - kalman_gain) * error_prediction })

/-- `reset` (lines 205-208). -/
def reset (f : KalmanFilter) : KalmanFilter :=
  { f with estimate := none, error_estimate := 1 }

end KalmanFilter

/-! ## Mouse controller (`src/core/mouse_controller.py`) -/

/-- Python's `int()` conversion on a float: truncation toward zero. -/
def pyInt (q : ℚ) : ℤ :=
  if 0 ≤ q then ⌊q⌋ else ⌈q⌉

/-- The fields of `MouseController` that `map_to_screen` reads
(`mouse_controller.py` lines 64-86): `margin` is fixed to `0.1` by
`__init__`, the screen dimensions come from the OS, `sensitivity` is
configuration. -/
structure MouseController where
  sensitivity : ℚ
  margin : ℚ
  screen_width : ℤ
  screen_height : ℤ
  deriving DecidableEq, Repr

namespace MouseController

/-- `map_to_screen` (`mouse_controller.py` lines 88-115): margin crop, clamp
to `[0, 1]`, scale by sensitivity and screen dimension, `int()` truncation,
clamp to the screen bounds. -/
def map_to_screen (c : MouseController) (x y : ℚ) : ℤ × ℤ :=
  let x_adjusted := (x - c.margin) / (1 - 2 * c.margin)
  let y_adjusted := (y - c.margin) / (1 - 2 * c.margin)
  let x_clamped := max 0 (min 1 x_adjusted)
  let y_clamped := max 0 (min 1 y_adjusted)
  let screen_x := pyInt (x_clamped * (c.screen_width : ℚ) * c.sensitivity)
  let screen_y := pyInt (y_clamped * (c.screen_height : ℚ) * c.sensitivity)
  (max 0 (min (c.screen_width - 1) screen_x),
   max 0 (min (c.screen_height - 1) screen_y))

end MouseController

/-! ## Gesture detector (`src/core/gesture_detector.py`) -/

/-- `GestureState` (`gesture_detector.py` lines 27-49). -/
structure GestureState where
  current_gesture : GestureType
  last_trigger_time : ℚ
  debounce_time : ℚ
  is_pinched : Bool
  scroll_baseline : Option (ℚ × ℚ)
  deriving DecidableEq, Repr

namespace GestureState

/-- `__init__` (lines 30-41). -/
def init (debounce_time : ℚ) : GestureState :=
  { current_gesture := GestureType.NONE, last_trigger_time := 0,
    debounce_time := debounce_time, is_pinched := false,
    scroll_baseline := none }

/-- `can_trigger` (lines 43-45): enough wall-clock time has passed since the
last trigger.  `time.time()` is passed in as `now`. -/
def can_trigger (s : GestureState) (now : ℚ) : Bool :=
  decide (now - s.last_trigger_time ≥ s.debounce_time)

/-- `trigger` (lines 47-49). -/
def trigger (s : GestureState) (now : ℚ) : GestureState :=
  { s with last_trigger_time := now }

end GestureState

/-- `GestureDetector` (`gesture_detector.py` lines 52-75): thresholds plus the
mutable state carried across ticks. -/
structure GestureDetector where
  pinch_threshold : ℚ
  scroll_threshold : ℚ
  state : GestureState
  prev_index_pos : Option (ℚ × ℚ)
  prev_scroll_pos : Option (ℚ × ℚ)
  deriving DecidableEq, Repr

namespace GestureDetector

/-- `__init__` (lines 55-75). -/
def init (pinch_threshold scroll_threshold click_debounce : ℚ) : GestureDetector :=
  { pinch_threshold := pinch_threshold, scroll_threshold := scroll_threshold,
    state := GestureState.init click_debounce,
    prev_index_pos := none, prev_scroll_pos := none }

/-- `_is_finger_extended` (`gesture_detector.py` lines 181-199): the tip is
above (smaller y than) the PIP joint two indices before it. -/
def is_finger_extended (hand : HandLandmarks) (finger_tip_idx : ℕ) : Bool :=
  let pip_idx := finger_tip_idx - 2
  decide ((hand.get_landmark finger_tip_idx).2.1 < (hand.get_landmark pip_idx).2.1)

/-- Lines 132-179 of `detect_gesture`: the scroll-mode check, the cursor-move
default and the final no-gesture case, reached only when neither click branch
returned.  `index_tip`/`middle_tip` are recomputed; `get_landmark` is pure, so
they equal the locals bound at lines 97-98. -/
def scroll_cursor_step (rsqrt : ℚ → ℚ) (d : GestureDetector) (hand : HandLandmarks) :
    (GestureType × GData) × GestureDetector :=
  let index_tip := hand.get_landmark HandLandmarks.INDEX_FINGER_TIP
  let middle_tip := hand.get_landmark HandLandmarks.MIDDLE_FINGER_TIP
  let index_extended := is_finger_extended hand HandLandmarks.INDEX_FINGER_TIP
  let middle_extended := is_finger_extended hand HandLandmarks.MIDDLE_FINGER_TIP
  let ring_extended := is_finger_extended hand HandLandmarks.RING_FINGER_TIP
  let pinky_extended := is_finger_extended hand HandLandmarks.PINKY_TIP
  if index_extended && middle_extended && !ring_extended && !pinky_extended then
    let scroll_pos := ((index_tip.1 + middle_tip.1) / 2, (index_tip.2.1 + middle_tip.2.1) / 2)
    match d.prev_scroll_pos with
    | some prev =>
      let delta_y := scroll_pos.2 - prev.2
      if |delta_y| > d.scroll_threshold then
        ((GestureType.SCROLL, { delta_y := some delta_y, position := some scroll_pos }),
         { d with prev_scroll_pos := some scroll_pos })
      else
        ((GestureType.SCROLL, { delta_y := some 0, position := some scroll_pos }),
         { d with prev_scroll_pos := some scroll_pos })
    | none =>
      ((GestureType.SCROLL, { delta_y := some 0, position := some scroll_pos }),
       { d with prev_scroll_pos := some scroll_pos })
  else
    let d2 := { d with prev_scroll_pos := none }
    if index_extended then
      let position := (index_tip.1, index_tip.2.1)
      let velocity :=
        match d2.prev_index_pos with
        | none => 0
        | some prev => rsqrt ((position.1 - prev.1) ^ 2 + (position.2 - prev.2) ^ 2)
      ((GestureType.CURSOR_MOVE, { position := some position, velocity := some velocity }),
       { d2 with prev_index_pos := some position })
    else
      ((GestureType.NONE, {}), { d2 with prev_index_pos := none })

/-- Lines 126-130 of `detect_gesture`: the right-click branch, reached after
the left-click section fell through with (possibly latch-updated) state `d1`,
then falling through to `scroll_cursor_step`. -/
def after_left (rsqrt : ℚ → ℚ) (d1 : GestureDetector) (now : ℚ) (hand : HandLandmarks) :
    (GestureType × GData) × GestureDetector :=
  let middle_tip := hand.get_landmark HandLandmarks.MIDDLE_FINGER_TIP
  let is_thumb_middle_pinched :=
    decide (hand.thumb_middle_dist_norm rsqrt < d1.pinch_threshold)
  if is_thumb_middle_pinched && d1.state.can_trigger now then
    ((GestureType.RIGHT_CLICK, { position := some (middle_tip.1, middle_tip.2.1) }),
     { d1 with state := d1.state.trigger now })
  else
    scroll_cursor_step rsqrt d1 hand

/-- `detect_gesture` (`gesture_detector.py` lines 77-179).  `now` is the value
`time.time()` would return during this tick. -/
def detect_gesture (rsqrt : ℚ → ℚ) (d : GestureDetector) (now : ℚ) :
    Option HandLandmarks → (GestureType × GData) × GestureDetector
  | none =>
    ((GestureType.NONE, {}),
     { d with state := { d.state with current_gesture := GestureType.NONE },
              prev_index_pos := none, prev_scroll_pos := none })
  | some hand =>
    let index_tip := hand.get_landmark HandLandmarks.INDEX_FINGER_TIP
    let is_thumb_index_pinched :=
      decide (hand.thumb_index_dist_norm rsqrt < d.pinch_threshold)
    if is_thumb_index_pinched && !d.state.is_pinched then
      if d.state.can_trigger now then
        ((GestureType.LEFT_CLICK, { position := some (index_tip.1, index_tip.2.1) }),
         { d with state := { (d.state.trigger now) with is_pinched := true } })
      else
        after_left rsqrt d now hand
    else if !is_thumb_index_pinched then
      after_left rsqrt { d with state := { d.state with is_pinched := false } } now hand
    else
      after_left rsqrt d now hand

/-- Drive `detect_gesture` over a whole tick stream, recording each tick's
timestamp and emitted event. -/
def run (rsqrt : ℚ → ℚ) :
    GestureDetector → List (ℚ × Option HandLandmarks) → List (ℚ × GestureType × GData)
  | _, [] => []
  | d, (t, h) :: rest =>
    let r := d.detect_gesture rsqrt t h
    (t, r.1) :: run rsqrt r.2 rest

end GestureDetector

/-- Whether a gesture type is one of the two click kinds. -/
def isClickType : GestureType → Bool
  | GestureType.LEFT_CLICK => true
  | GestureType.RIGHT_CLICK => true
  | _ => false

/-! ## Concrete hands for witnesses

All squared distances the detector computes on these hands are perfect
rational squares, so `ratSqrt` returns the exact Euclidean norm. -/

/-- A hand with a thumb-index pinch (normalized distance `0.03`), no
thumb-middle pinch, and no finger extended: hand size `0.1`, matching the
spec's left-click scenario. -/
def handPinchLeft : HandLandmarks :=
  { points :=
      [(0, 0, 0), (0, 0, 0), (0, 0, 0), (0, 0, 0),
       (1/2, 1/2, 0),                                -- THUMB_TIP
       (0, 0, 0), (0, 0, 0), (0, 0, 0),
       (503/1000, 1/2, 0),                           -- INDEX_FINGER_TIP
       (1/10, 0, 0),                                 -- MIDDLE_FINGER_MCP
       (0, 0, 0), (0, 0, 0),
       (1/2, 9/10, 0),                               -- MIDDLE_FINGER_TIP
       (0, 0, 0), (0, 0, 0), (0, 0, 0), (0, 0, 0),
       (0, 0, 0), (0, 0, 0), (0, 0, 0), (0, 0, 0)],
    handedness := "Right" }

/-- A hand with a thumb-middle pinch (normalized distance `0.03`), no
thumb-index pinch, and no finger extended. -/
def handPinchRight : HandLandmarks :=
  { points :=
      [(0, 0, 0), (0, 0, 0), (0, 0, 0), (0, 0, 0),
       (1/2, 1/2, 0),                                -- THUMB_TIP
       (0, 0, 0), (0, 0, 0), (0, 0, 0),
       (9/10, 1/2, 0),                               -- INDEX_FINGER_TIP
       (1/10, 0, 0),                                 -- MIDDLE_FINGER_MCP
       (0, 0, 0), (0, 0, 0),
       (503/1000, 1/2, 0),                           -- MIDDLE_FINGER_TIP
       (0, 0, 0), (0, 0, 0), (0, 0, 0), (0, 0, 0),
       (0, 0, 0), (0, 0, 0), (0, 0, 0), (0, 0, 0)],
    handedness := "Right" }

/-- A hand in the scroll pose: index and middle extended, ring and pinky not,
neither pinch active; the index/middle tip midpoint is `(0.45, 0.45)`. -/
def handScroll : HandLandmarks :=
  { points :=
      [(0, 0, 0), (0, 0, 0), (0, 0, 0), (0, 0, 0),
       (0, 0, 0),                                    -- THUMB_TIP
       (0, 0, 0),
       (2/5, 3/5, 0),                                -- INDEX_FINGER_PIP
       (0, 0, 0),
       (2/5, 9/20, 0),                               -- INDEX_FINGER_TIP
       (1/10, 0, 0),                                 -- MIDDLE_FINGER_MCP
       (1/2, 3/5, 0),                                -- MIDDLE_FINGER_PIP
       (0, 0, 0),
       (1/2, 9/20, 0),                               -- MIDDLE_FINGER_TIP
       (0, 0, 0), (0, 0, 0), (0, 0, 0), (0, 0, 0),
       (0, 0, 0), (0, 0, 0), (0, 0, 0), (0, 0, 0)],
    handedness := "Right" }

/-- A hand with only the index finger extended (cursor-move pose), neither
pinch active. -/
def handCursor : HandLandmarks :=
  { points :=
      [(0, 0, 0), (0, 0, 0), (0, 0, 0), (0, 0, 0),
       (1, 0, 0),                                    -- THUMB_TIP
       (0, 0, 0),
       (2/5, 3/5, 0),                                -- INDEX_FINGER_PIP
       (0, 0, 0),
       (2/5, 9/20, 0),                               -- INDEX_FINGER_TIP
       (1/10, 0, 0),                                 -- MIDDLE_FINGER_MCP
       (0, 0, 0), (0, 0, 0),
       (0, 0, 0),                                    -- MIDDLE_FINGER_TIP
       (0, 0, 0), (0, 0, 0), (0, 0, 0), (0, 0, 0),
       (0, 0, 0), (0, 0, 0), (0, 0, 0), (0, 0, 0)],
    handedness := "Right" }

/-! ## Step lemmas for the detector -/

/-- The scroll/cursor/none section never touches the `GestureState`, never
emits a click, and preserves the thresholds. -/
theorem scroll_cursor_step_facts (rsqrt : ℚ → ℚ) (d : GestureDetector) (hand : HandLandmarks) :
    (GestureDetector.scroll_cursor_step rsqrt d hand).2.state = d.state ∧
    (GestureDetector.scroll_cursor_step rsqrt d hand).2.pinch_threshold = d.pinch_threshold ∧
    (GestureDetector.scroll_cursor_step rsqrt d hand).2.scroll_threshold = d.scroll_threshold ∧
    isClickType (GestureDetector.scroll_cursor_step rsqrt d hand).1.1 = false := by
  unfold GestureDetector.scroll_cursor_step
  dsimp only
  repeat' split
  all_goals simp [isClickType]

/-- The right-click section preserves thresholds, debounce interval and the
pinch latch; it sets the last-trigger time to `now` exactly when it emits a
click (which requires the debounce gate to be open), and leaves it unchanged
otherwise. -/
theorem after_left_facts (rsqrt : ℚ → ℚ) (d1 : GestureDetector) (now : ℚ) (hand : HandLandmarks) :
    (GestureDetector.after_left rsqrt d1 now hand).2.pinch_threshold = d1.pinch_threshold ∧
    (GestureDetector.after_left rsqrt d1 now hand).2.scroll_threshold = d1.scroll_threshold ∧
    (GestureDetector.after_left rsqrt d1 now hand).2.state.debounce_time = d1.state.debounce_time ∧
    (GestureDetector.after_left rsqrt d1 now hand).2.state.is_pinched = d1.state.is_pinched ∧
    (isClickType (GestureDetector.after_left rsqrt d1 now hand).1.1 = true →
      (GestureDetector.after_left rsqrt d1 now hand).2.state.last_trigger_time = now ∧
      d1.state.debounce_time ≤ now - d1.state.last_trigger_time) ∧
    (isClickType (GestureDetector.after_left rsqrt d1 now hand).1.1 = false →
      (GestureDetector.after_left rsqrt d1 now hand).2.state.last_trigger_time
        = d1.state.last_trigger_time) := by
  unfold GestureDetector.after_left
  dsimp only
  split
  · next hcond =>
    simp only [Bool.and_eq_true, decide_eq_true_eq, GestureState.can_trigger] at hcond
    simp [isClickType, GestureState.trigger, hcond.2]
  · have h := scroll_cursor_step_facts rsqrt d1 hand
    simp_all

/-- Per-tick facts about `detect_gesture`: the thresholds and the debounce
interval are constant, the last-trigger time is set to `now` exactly on a
click tick (which requires the debounce gate open at this tick), and is
untouched on every other tick. -/
theorem detect_gesture_facts (rsqrt : ℚ → ℚ) (d : GestureDetector) (now : ℚ)
    (h : Option HandLandmarks) :
    (d.detect_gesture rsqrt now h).2.pinch_threshold = d.pinch_threshold ∧
    (d.detect_gesture rsqrt now h).2.scroll_threshold = d.scroll_threshold ∧
    (d.detect_gesture rsqrt now h).2.state.debounce_time = d.state.debounce_time ∧
    (isClickType (d.detect_gesture rsqrt now h).1.1 = true →
      (d.detect_gesture rsqrt now h).2.state.last_trigger_time = now ∧
      d.state.debounce_time ≤ now - d.state.last_trigger_time) ∧
    (isClickType (d.detect_gesture rsqrt now h).1.1 = false →
      (d.detect_gesture rsqrt now h).2.state.last_trigger_time
        = d.state.last_trigger_time) := by
  match h with
  | none => simp [GestureDetector.detect_gesture, isClickType]
  | some hand =>
    unfold GestureDetector.detect_gesture
    dsimp only
    split
    · split
      · next hct =>
        simp only [GestureState.can_trigger, decide_eq_true_eq] at hct
        simp [isClickType, GestureState.trigger]
        linarith
      · obtain ⟨a, b, c, -, e, f⟩ := after_left_facts rsqrt d now hand
        exact ⟨a, b, c, e, f⟩
    · split
      · obtain ⟨a, b, c, -, e, f⟩ := after_left_facts rsqrt
          { d with state := { d.state with is_pinched := false } } now hand
        exact ⟨a, b, c, e, f⟩
      · obtain ⟨a, b, c, -, e, f⟩ := after_left_facts rsqrt d now hand
        exact ⟨a, b, c, e, f⟩

/-! ## Trace lemmas for the debounce property -/

/-- The trace of a run carries the tick timestamps unchanged. -/
theorem run_map_fst (rsqrt : ℚ → ℚ) (d : GestureDetector)
    (l : List (ℚ × Option HandLandmarks)) :
    (GestureDetector.run rsqrt d l).map Prod.fst = l.map Prod.fst := by
  induction l generalizing d with
  | nil => rfl
  | cons p rest ih =>
    obtain ⟨t, h⟩ := p
    simp [GestureDetector.run, ih]

/-- Every click in a run whose tick times are non-decreasing and bounded
below by the carried last-trigger time happens at least one debounce
interval after that last-trigger time. -/
theorem run_clicks_lower_bound (rsqrt : ℚ → ℚ) (l : List (ℚ × Option HandLandmarks))
    (d : GestureDetector)
    (hge : ∀ p ∈ l, d.state.last_trigger_time ≤ p.1)
    (hmono : List.Pairwise (· ≤ ·) (l.map Prod.fst)) :
    ∀ p ∈ GestureDetector.run rsqrt d l, isClickType p.2.1 = true →
      d.state.last_trigger_time + d.state.debounce_time ≤ p.1 := by
  induction l generalizing d with
  | nil => simp [GestureDetector.run]
  | cons q rest ih =>
    obtain ⟨t, h⟩ := q
    simp only [List.map_cons, List.pairwise_cons] at hmono
    have hth : d.state.last_trigger_time ≤ t := hge (t, h) (List.mem_cons_self _ _)
    obtain ⟨hpth, hsth, hdth, hclick, hnoclick⟩ := detect_gesture_facts rsqrt d t h
    intro p hp hcp
    simp only [GestureDetector.run, List.mem_cons] at hp
    rcases hp with rfl | hp
    · have := hclick hcp
      linarith [this.2]
    · by_cases hc : isClickType (d.detect_gesture rsqrt t h).1.1 = true
      · -- the head tick clicked: the carried last-trigger time becomes `t`
        have hltt := (hclick hc).1
        have htail := ih (d.detect_gesture rsqrt t h).2
          (by
            intro r hr
            rw [hltt]
            have : t ≤ r.1 := by
              have := hmono.1 r.1 (List.mem_map_of_mem Prod.fst hr)
              exact this
            linarith)
          hmono.2 p hp hcp
        rw [hltt, hdth] at htail
        linarith
      · have hltt := hnoclick (by simpa using hc)
        have htail := ih (d.detect_gesture rsqrt t h).2
          (by
            intro r hr
            rw [hltt]
            exact hge r (List.mem_cons_of_mem _ hr))
          hmono.2 p hp hcp
        rw [hltt, hdth] at htail
        exact htail

/-- In a run with non-decreasing tick times, any two clicks are at least one
debounce interval apart. -/
theorem run_clicks_pairwise (rsqrt : ℚ → ℚ) (l : List (ℚ × Option HandLandmarks))
    (d : GestureDetector)
    (hmono : List.Pairwise (· ≤ ·) (l.map Prod.fst)) :
    List.Pairwise
      (fun a b => isClickType a.2.1 = true → isClickType b.2.1 = true →
        a.1 + d.state.debounce_time ≤ b.1)
      (GestureDetector.run rsqrt d l) := by
  induction l generalizing d with
  | nil => simp [GestureDetector.run]
  | cons q rest ih =>
    obtain ⟨t, h⟩ := q
    simp only [List.map_cons, List.pairwise_cons] at hmono
    obtain ⟨hpth, hsth, hdth, hclick, hnoclick⟩ := detect_gesture_facts rsqrt d t h
    simp only [GestureDetector.run, List.pairwise_cons]
    constructor
    · intro p hp hct hcp
      have hltt := (hclick hct).1
      have := run_clicks_lower_bound rsqrt rest (d.detect_gesture rsqrt t h).2
        (by
          intro r hr
          rw [hltt]
          exact hmono.1 r.1 (List.mem_map_of_mem Prod.fst hr))
        hmono.2 p hp hcp
      rw [hltt, hdth] at this
      exact this
    · have := ih (d.detect_gesture rsqrt t h).2 hmono.2
      rw [hdth] at this
      exact this

/-! ## Claim theorems -/

attribute [local semireducible] Rat.mul Rat.inv Rat.add Rat.sub Rat.ofScientific

/-- A detector configured like the spec's defaults: pinch threshold `0.05`,
scroll threshold `0.02`, click debounce `0.3`. -/
def wDet : GestureDetector := GestureDetector.init (1/20) (1/50) (3/10)

/-- C1: in any sequence of `detect_gesture` ticks with non-decreasing
timestamps, any click emitted at time `t` blocks any further click of either
kind until `t + click_debounce`: both click kinds share the one last-trigger
timestamp, and `can_trigger` holds exactly when
`now - last_trigger_time ≥ debounce_interval`. -/
theorem C1_shared_click_debounce (rsqrt : ℚ → ℚ) (d0 : GestureDetector)
    (l : List (ℚ × Option HandLandmarks))
    (hmono : List.Chain' (· ≤ ·) (l.map Prod.fst))
    (i j : Fin (GestureDetector.run rsqrt d0 l).length) (hij : i < j)
    (hci : isClickType ((GestureDetector.run rsqrt d0 l).get i).2.1 = true)
    (hcj : isClickType ((GestureDetector.run rsqrt d0 l).get j).2.1 = true) :
    d0.state.debounce_time ≤ ((GestureDetector.run rsqrt d0 l).get j).1
      - ((GestureDetector.run rsqrt d0 l).get i).1 ∧
    ∀ (s : GestureState) (now : ℚ),
      s.can_trigger now = true ↔ now - s.last_trigger_time ≥ s.debounce_time := by
  constructor
  · have hp := run_clicks_pairwise rsqrt l d0 (List.chain'_iff_pairwise.mp hmono)
    have := (List.pairwise_iff_get.mp hp) i j hij hci hcj
    linarith
  · intro s now
    simp [GestureState.can_trigger]

/-- Witness for C1: a right click at time 1 and a left click at time 2 under
debounce `0.3` are at least `0.3` apart (the first click was a right click
and still gated the later left click through the shared timestamp). -/
theorem C1_shared_click_debounce_witness :
    wDet.state.debounce_time ≤
      ((GestureDetector.run witSqrt wDet [(1, some handPinchRight), (2, some handPinchLeft)]).get
        ⟨1, by decide⟩).1
      - ((GestureDetector.run witSqrt wDet [(1, some handPinchRight), (2, some handPinchLeft)]).get
        ⟨0, by decide⟩).1 ∧
    ∀ (s : GestureState) (now : ℚ),
      s.can_trigger now = true ↔ now - s.last_trigger_time ≥ s.debounce_time :=
  C1_shared_click_debounce witSqrt wDet [(1, some handPinchRight), (2, some handPinchLeft)]
    (by norm_num [List.chain'_cons]) ⟨0, by decide⟩ ⟨1, by decide⟩ (by decide) (by decide)
    (by decide)

/-- Number of `LEFT_CLICK` events in a trace. -/
def countLeftClicks (tr : List (ℚ × GestureType × GData)) : ℕ :=
  tr.countP (fun p => decide (p.2.1 = GestureType.LEFT_CLICK))

/-- The right-click/scroll/cursor sections never emit a `LEFT_CLICK`. -/
theorem after_left_not_left (rsqrt : ℚ → ℚ) (d1 : GestureDetector) (now : ℚ)
    (hand : HandLandmarks) :
    (GestureDetector.after_left rsqrt d1 now hand).1.1 ≠ GestureType.LEFT_CLICK := by
  unfold GestureDetector.after_left
  dsimp only
  split
  · simp
  · have h := (scroll_cursor_step_facts rsqrt d1 hand).2.2.2
    intro hc
    rw [hc] at h
    simp [isClickType] at h

/-- Latch behaviour of one tick whose thumb-index distance is below the pinch
threshold: an already-set latch suppresses `LEFT_CLICK` and stays set; a
`LEFT_CLICK` tick sets the latch; a non-`LEFT_CLICK` tick leaves it as it
was. -/
theorem detect_gesture_latch (rsqrt : ℚ → ℚ) (d : GestureDetector) (now : ℚ)
    (hand : HandLandmarks)
    (hp : hand.thumb_index_dist_norm rsqrt < d.pinch_threshold) :
    (d.state.is_pinched = true →
      (d.detect_gesture rsqrt now (some hand)).1.1 ≠ GestureType.LEFT_CLICK ∧
      (d.detect_gesture rsqrt now (some hand)).2.state.is_pinched = true) ∧
    ((d.detect_gesture rsqrt now (some hand)).1.1 = GestureType.LEFT_CLICK →
      (d.detect_gesture rsqrt now (some hand)).2.state.is_pinched = true) ∧
    ((d.detect_gesture rsqrt now (some hand)).1.1 ≠ GestureType.LEFT_CLICK →
      (d.detect_gesture rsqrt now (some hand)).2.state.is_pinched
        = d.state.is_pinched) := by
  unfold GestureDetector.detect_gesture
  dsimp only
  rw [decide_eq_true hp]
  cases hl : d.state.is_pinched with
  | true =>
    simp only [Bool.not_true, Bool.and_false, Bool.true_and, Bool.not_false, if_false]
    have h1 := after_left_not_left rsqrt d now hand
    have h2 := (after_left_facts rsqrt d now hand).2.2.2.1
    simp_all
  | false =>
    simp only [Bool.not_false, Bool.and_true, Bool.true_and]
    by_cases hct : d.state.can_trigger now = true
    · simp [hct]
    · rw [if_neg hct]
      have h1 := after_left_not_left rsqrt d now hand
      have h2 := (after_left_facts rsqrt d now hand).2.2.2.1
      simp_all

/-- With the latch set, a run of all-pinched ticks emits no `LEFT_CLICK`. -/
theorem run_latched_no_left (rsqrt : ℚ → ℚ) (l : List (ℚ × Option HandLandmarks)) :
    ∀ d : GestureDetector, d.state.is_pinched = true →
    (∀ p ∈ l, ∃ hand, p.2 = some hand ∧
      hand.thumb_index_dist_norm rsqrt < d.pinch_threshold) →
    countLeftClicks (GestureDetector.run rsqrt d l) = 0 := by
  induction l with
  | nil => intro d _ _; rfl
  | cons q rest ih =>
    intro d hl hall
    obtain ⟨t, h⟩ := q
    obtain ⟨hand, rfl, hp⟩ := hall (t, h) (List.mem_cons_self _ _)
    obtain ⟨hsup, hkeep⟩ := (detect_gesture_latch rsqrt d t hand hp).1 hl
    have hpth := (detect_gesture_facts rsqrt d t (some hand)).1
    simp only [GestureDetector.run, countLeftClicks, List.countP_cons,
      decide_eq_true_eq]
    rw [if_neg (by simpa using hsup)]
    have := ih (d.detect_gesture rsqrt t (some hand)).2 hkeep
      (by
        intro r hr
        obtain ⟨hand', hr1, hr2⟩ := hall r (List.mem_cons_of_mem _ hr)
        exact ⟨hand', hr1, by rw [hpth]; exact hr2⟩)
    simpa [countLeftClicks] using this

/-- Over any run of consecutive all-pinched ticks, at most one `LEFT_CLICK`
is emitted. -/
theorem run_pinched_at_most_one_left (rsqrt : ℚ → ℚ)
    (l : List (ℚ × Option HandLandmarks)) :
    ∀ d : GestureDetector,
    (∀ p ∈ l, ∃ hand, p.2 = some hand ∧
      hand.thumb_index_dist_norm rsqrt < d.pinch_threshold) →
    countLeftClicks (GestureDetector.run rsqrt d l) ≤ 1 := by
  induction l with
  | nil => intro d _; simp [GestureDetector.run, countLeftClicks]
  | cons q rest ih =>
    intro d hall
    obtain ⟨t, h⟩ := q
    obtain ⟨hand, rfl, hp⟩ := hall (t, h) (List.mem_cons_self _ _)
    have hpth := (detect_gesture_facts rsqrt d t (some hand)).1
    have hrest : ∀ p ∈ rest, ∃ hand', p.2 = some hand' ∧
        hand'.thumb_index_dist_norm rsqrt
          < (d.detect_gesture rsqrt t (some hand)).2.pinch_threshold := by
      intro r hr
      obtain ⟨hand', hr1, hr2⟩ := hall r (List.mem_cons_of_mem _ hr)
      exact ⟨hand', hr1, by rw [hpth]; exact hr2⟩
    by_cases hev : (d.detect_gesture rsqrt t (some hand)).1.1 = GestureType.LEFT_CLICK
    · have hlatch := (detect_gesture_latch rsqrt d t hand hp).2.1 hev
      have h0 := run_latched_no_left rsqrt rest (d.detect_gesture rsqrt t (some hand)).2
        hlatch hrest
      simp only [GestureDetector.run, countLeftClicks, List.countP_cons,
        decide_eq_true_eq]
      rw [if_pos hev]
      simp only [countLeftClicks] at h0
      omega
    · have := ih (d.detect_gesture rsqrt t (some hand)).2 hrest
      simp only [GestureDetector.run, countLeftClicks, List.countP_cons,
        decide_eq_true_eq]
      rw [if_neg hev]
      simp only [countLeftClicks] at this
      omega

/-- C2: over a run of consecutive ticks whose thumb-index normalized distance
stays below the pinch threshold, at most one `LEFT_CLICK` is emitted; a tick
whose distance is back above the threshold clears the latch; and a
sub-threshold tick with the latch clear and the debounce gate open emits a
`LEFT_CLICK` again. -/
theorem C2_pinch_latch :
    (∀ (rsqrt : ℚ → ℚ) (d : GestureDetector) (l : List (ℚ × Option HandLandmarks)),
      (∀ p ∈ l, ∃ hand, p.2 = some hand ∧
        hand.thumb_index_dist_norm rsqrt < d.pinch_threshold) →
      countLeftClicks (GestureDetector.run rsqrt d l) ≤ 1) ∧
    (∀ (rsqrt : ℚ → ℚ) (d : GestureDetector) (now : ℚ) (hand : HandLandmarks),
      ¬ hand.thumb_index_dist_norm rsqrt < d.pinch_threshold →
      (d.detect_gesture rsqrt now (some hand)).2.state.is_pinched = false) ∧
    (∀ (rsqrt : ℚ → ℚ) (d : GestureDetector) (now : ℚ) (hand : HandLandmarks),
      hand.thumb_index_dist_norm rsqrt < d.pinch_threshold →
      d.state.is_pinched = false →
      d.state.can_trigger now = true →
      (d.detect_gesture rsqrt now (some hand)).1.1 = GestureType.LEFT_CLICK) := by
  refine ⟨fun rsqrt d l h => run_pinched_at_most_one_left rsqrt l d h, ?_, ?_⟩
  · intro rsqrt d now hand hnp
    unfold GestureDetector.detect_gesture
    dsimp only
    rw [decide_eq_false hnp]
    simp only [Bool.false_and, Bool.not_false, if_false, if_true]
    exact (after_left_facts rsqrt
      { d with state := { d.state with is_pinched := false } } now hand).2.2.2.1
  · intro rsqrt d now hand hp hl hct
    unfold GestureDetector.detect_gesture
    dsimp only
    rw [decide_eq_true hp, hl]
    simp [hct]

/-- Witness for C2: a two-tick sustained pinch emits exactly at most one left
click; an unpinched tick clears the latch; a fresh pinch with the gate open
emits a left click. -/
theorem C2_pinch_latch_witness :
    countLeftClicks (GestureDetector.run witSqrt wDet
      [(1, some handPinchLeft), (2, some handPinchLeft)]) ≤ 1 ∧
    (wDet.detect_gesture witSqrt 1 (some handPinchRight)).2.state.is_pinched = false ∧
    (wDet.detect_gesture witSqrt 1 (some handPinchLeft)).1.1 = GestureType.LEFT_CLICK :=
  ⟨C2_pinch_latch.1 witSqrt wDet [(1, some handPinchLeft), (2, some handPinchLeft)]
      (by decide),
   C2_pinch_latch.2.1 witSqrt wDet 1 handPinchRight (by decide),
   C2_pinch_latch.2.2 witSqrt wDet 1 handPinchLeft (by decide) (by decide) (by decide)⟩

/-- When the thumb-middle pinch is on and the debounce gate is open, the
right-click section emits `RIGHT_CLICK` with the middle-finger-tip position
and records the trigger time. -/
theorem after_left_right_click (rsqrt : ℚ → ℚ) (d1 : GestureDetector) (now : ℚ)
    (hand : HandLandmarks)
    (hm : hand.thumb_middle_dist_norm rsqrt < d1.pinch_threshold)
    (hct : d1.state.can_trigger now = true) :
    GestureDetector.after_left rsqrt d1 now hand
      = ((GestureType.RIGHT_CLICK,
          { position := some ((hand.get_landmark HandLandmarks.MIDDLE_FINGER_TIP).1,
                              (hand.get_landmark HandLandmarks.MIDDLE_FINGER_TIP).2.1) }),
         { d1 with state := d1.state.trigger now }) := by
  unfold GestureDetector.after_left
  dsimp only
  rw [decide_eq_true hm, hct]
  simp

/-- C3: on a tick whose thumb-middle normalized distance is below the pinch
threshold, where the left-click branch did not fire and the debounce gate is
open, a `RIGHT_CLICK` carrying the middle-finger-tip position is emitted —
for an arbitrary detector state, in particular whatever earlier right clicks
of the same sustained pinch occurred (there is no right-click latch). -/
theorem C3_right_click_refires (rsqrt : ℚ → ℚ) (d : GestureDetector) (now : ℚ)
    (hand : HandLandmarks)
    (hm : hand.thumb_middle_dist_norm rsqrt < d.pinch_threshold)
    (hnl : ¬(hand.thumb_index_dist_norm rsqrt < d.pinch_threshold ∧
             d.state.is_pinched = false ∧ d.state.can_trigger now = true))
    (hct : d.state.can_trigger now = true) :
    (d.detect_gesture rsqrt now (some hand)).1
      = (GestureType.RIGHT_CLICK,
         { position := some ((hand.get_landmark HandLandmarks.MIDDLE_FINGER_TIP).1,
                             (hand.get_landmark HandLandmarks.MIDDLE_FINGER_TIP).2.1) }) := by
  unfold GestureDetector.detect_gesture
  dsimp only
  by_cases hti : hand.thumb_index_dist_norm rsqrt < d.pinch_threshold
  · rw [decide_eq_true hti]
    cases hl : d.state.is_pinched with
    | false => exact absurd ⟨hti, hl, hct⟩ hnl
    | true =>
      simp only [Bool.not_true, Bool.and_false, Bool.false_eq_true, if_false,
        Bool.not_true, if_false]
      rw [after_left_right_click rsqrt d now hand hm hct]
  · rw [decide_eq_false hti]
    simp only [Bool.false_and, Bool.false_eq_true, if_false, Bool.not_false, if_true]
    rw [after_left_right_click rsqrt
      { d with state := { d.state with is_pinched := false } } now hand hm hct]

/-- Witness for C3: a detector that already right-clicked at time 1 (latch
irrelevant) right-clicks again at time 2 while the middle pinch is held. -/
theorem C3_right_click_refires_witness :
    ((wDet.detect_gesture witSqrt 1 (some handPinchRight)).2.detect_gesture witSqrt 2
        (some handPinchRight)).1
      = (GestureType.RIGHT_CLICK,
         { position := some ((handPinchRight.get_landmark HandLandmarks.MIDDLE_FINGER_TIP).1,
                             (handPinchRight.get_landmark HandLandmarks.MIDDLE_FINGER_TIP).2.1) }) :=
  C3_right_click_refires witSqrt (wDet.detect_gesture witSqrt 1 (some handPinchRight)).2 2
    handPinchRight (by decide) (by decide) (by decide)

/-- When the right-click condition does not hold, the right-click section
falls through to the scroll/cursor section unchanged. -/
theorem after_left_no_click (rsqrt : ℚ → ℚ) (d1 : GestureDetector) (now : ℚ)
    (hand : HandLandmarks)
    (hR : ¬(hand.thumb_middle_dist_norm rsqrt < d1.pinch_threshold ∧
            d1.state.can_trigger now = true)) :
    GestureDetector.after_left rsqrt d1 now hand
      = GestureDetector.scroll_cursor_step rsqrt d1 hand := by
  unfold GestureDetector.after_left
  dsimp only
  rw [if_neg (by simpa [Bool.and_eq_true, decide_eq_true_eq] using hR)]

/-- A tick on which neither click branch fires reduces to the scroll/cursor
section, with the state unchanged except possibly for the pinch latch. -/
theorem detect_gesture_no_click (rsqrt : ℚ → ℚ) (d : GestureDetector) (now : ℚ)
    (hand : HandLandmarks)
    (hL : ¬(hand.thumb_index_dist_norm rsqrt < d.pinch_threshold ∧
            d.state.is_pinched = false ∧ d.state.can_trigger now = true))
    (hR : ¬(hand.thumb_middle_dist_norm rsqrt < d.pinch_threshold ∧
            d.state.can_trigger now = true)) :
    ∃ b : Bool, d.detect_gesture rsqrt now (some hand)
      = GestureDetector.scroll_cursor_step rsqrt
          { d with state := { d.state with is_pinched := b } } hand := by
  unfold GestureDetector.detect_gesture
  dsimp only
  by_cases hti : hand.thumb_index_dist_norm rsqrt < d.pinch_threshold
  · rw [decide_eq_true hti]
    by_cases hlp : d.state.is_pinched = true
    · rw [hlp]
      simp only [Bool.not_true, Bool.and_false, Bool.false_eq_true, if_false,
        Bool.not_true, if_false]
      rw [after_left_no_click rsqrt d now hand hR]
      exact ⟨d.state.is_pinched, rfl⟩
    · rw [Bool.not_eq_true] at hlp
      rw [hlp]
      simp only [Bool.not_false, Bool.and_true, Bool.true_and, if_true]
      have hct : ¬ d.state.can_trigger now = true := fun hc => hL ⟨hti, hlp, hc⟩
      rw [if_neg hct, after_left_no_click rsqrt d now hand hR]
      exact ⟨d.state.is_pinched, rfl⟩
  · rw [decide_eq_false hti]
    simp only [Bool.false_and, Bool.false_eq_true, if_false, Bool.not_false, if_true]
    rw [after_left_no_click rsqrt
      { d with state := { d.state with is_pinched := false } } now hand hR]
    exact ⟨false, rfl⟩

/-- The index-tip/middle-tip midpoint computed by the scroll branch
(`gesture_detector.py` lines 141-144). -/
def scroll_midpoint (hand : HandLandmarks) : ℚ × ℚ :=
  (((hand.get_landmark HandLandmarks.INDEX_FINGER_TIP).1
      + (hand.get_landmark HandLandmarks.MIDDLE_FINGER_TIP).1) / 2,
   ((hand.get_landmark HandLandmarks.INDEX_FINGER_TIP).2.1
      + (hand.get_landmark HandLandmarks.MIDDLE_FINGER_TIP).2.1) / 2)

/-- C4: on a tick that reaches the scroll branch (scroll pose held, neither
click branch fired) with a stored previous midpoint `p`, the emitted event is
`Scroll` with `delta_y = current midpoint y - p.y` when `|delta| >
scroll_threshold` and `delta_y = 0` otherwise, and in both cases the stored
midpoint becomes the current one. -/
theorem C4_scroll_delta (rsqrt : ℚ → ℚ) (d : GestureDetector) (now : ℚ)
    (hand : HandLandmarks) (p : ℚ × ℚ)
    (hL : ¬(hand.thumb_index_dist_norm rsqrt < d.pinch_threshold ∧
            d.state.is_pinched = false ∧ d.state.can_trigger now = true))
    (hR : ¬(hand.thumb_middle_dist_norm rsqrt < d.pinch_threshold ∧
            d.state.can_trigger now = true))
    (hie : GestureDetector.is_finger_extended hand HandLandmarks.INDEX_FINGER_TIP = true)
    (hme : GestureDetector.is_finger_extended hand HandLandmarks.MIDDLE_FINGER_TIP = true)
    (hre : GestureDetector.is_finger_extended hand HandLandmarks.RING_FINGER_TIP = false)
    (hpe : GestureDetector.is_finger_extended hand HandLandmarks.PINKY_TIP = false)
    (hprev : d.prev_scroll_pos = some p) :
    (|(scroll_midpoint hand).2 - p.2| > d.scroll_threshold →
      (d.detect_gesture rsqrt now (some hand)).1
        = (GestureType.SCROLL,
           { delta_y := some ((scroll_midpoint hand).2 - p.2),
             position := some (scroll_midpoint hand) }) ∧
      (d.detect_gesture rsqrt now (some hand)).2.prev_scroll_pos
        = some (scroll_midpoint hand)) ∧
    (¬ |(scroll_midpoint hand).2 - p.2| > d.scroll_threshold →
      (d.detect_gesture rsqrt now (some hand)).1
        = (GestureType.SCROLL,
           { delta_y := some 0, position := some (scroll_midpoint hand) }) ∧
      (d.detect_gesture rsqrt now (some hand)).2.prev_scroll_pos
        = some (scroll_midpoint hand)) := by
  obtain ⟨b, heq⟩ := detect_gesture_no_click rsqrt d now hand hL hR
  rw [heq]
  unfold GestureDetector.scroll_cursor_step
  dsimp only
  rw [hie, hme, hre, hpe]
  simp only [Bool.not_false, Bool.and_true, Bool.true_and, if_true]
  rw [hprev]
  simp only [scroll_midpoint]
  constructor
  · intro hgt
    rw [if_pos hgt]
    exact ⟨rfl, rfl⟩
  · intro hle
    rw [if_neg hle]
    exact ⟨rfl, rfl⟩

/-- Witness for C4: the spec's scenario — previous midpoint y `0.40`, current
midpoint `(0.45, 0.45)`, scroll threshold `0.02` — emits
`Scroll{delta_y = 0.05}` and stores the new midpoint. -/
theorem C4_scroll_delta_witness :
    ({ wDet with prev_scroll_pos := some (2/5, 2/5) }.detect_gesture witSqrt 0
        (some handScroll)).1
      = (GestureType.SCROLL, { delta_y := some (1/20), position := some (9/20, 9/20) }) ∧
    ({ wDet with prev_scroll_pos := some (2/5, 2/5) }.detect_gesture witSqrt 0
        (some handScroll)).2.prev_scroll_pos = some (9/20, 9/20) := by
  obtain ⟨h1, h2⟩ := (C4_scroll_delta witSqrt
    { wDet with prev_scroll_pos := some (2/5, 2/5) } 0 handScroll (2/5, 2/5)
    (by decide) (by decide) (by decide) (by decide) (by decide) (by decide) rfl).1
    (by decide)
  exact ⟨h1.trans (by decide), h2.trans (by decide)⟩

/-- Counterexample to C5 as stated: a tick that observes a hand out of the
scroll pose but emits a `LeftClick` returns before line 157 of
`gesture_detector.py`, so the stored scroll midpoint is *not* cleared. -/
theorem C5_counterexample_click_keeps_midpoint :
    (GestureDetector.is_finger_extended handPinchLeft HandLandmarks.INDEX_FINGER_TIP &&
     GestureDetector.is_finger_extended handPinchLeft HandLandmarks.MIDDLE_FINGER_TIP &&
     !GestureDetector.is_finger_extended handPinchLeft HandLandmarks.RING_FINGER_TIP &&
     !GestureDetector.is_finger_extended handPinchLeft HandLandmarks.PINKY_TIP) = false ∧
    ({ wDet with prev_scroll_pos := some (1/2, 1/2) }.detect_gesture witSqrt 1
        (some handPinchLeft)).1.1 = GestureType.LEFT_CLICK ∧
    ({ wDet with prev_scroll_pos := some (1/2, 1/2) }.detect_gesture witSqrt 1
        (some handPinchLeft)).2.prev_scroll_pos = some (1/2, 1/2) := by
  decide

/-- C5 amended: on a tick that observes a hand, reaches past the click
branches (neither click fires), and finds the scroll-pose condition false,
the stored scroll midpoint is cleared. -/
theorem C5_amended_leaving_scroll_clears (rsqrt : ℚ → ℚ) (d : GestureDetector)
    (now : ℚ) (hand : HandLandmarks)
    (hL : ¬(hand.thumb_index_dist_norm rsqrt < d.pinch_threshold ∧
            d.state.is_pinched = false ∧ d.state.can_trigger now = true))
    (hR : ¬(hand.thumb_middle_dist_norm rsqrt < d.pinch_threshold ∧
            d.state.can_trigger now = true))
    (hpose : (GestureDetector.is_finger_extended hand HandLandmarks.INDEX_FINGER_TIP &&
              GestureDetector.is_finger_extended hand HandLandmarks.MIDDLE_FINGER_TIP &&
              !GestureDetector.is_finger_extended hand HandLandmarks.RING_FINGER_TIP &&
              !GestureDetector.is_finger_extended hand HandLandmarks.PINKY_TIP) = false) :
    (d.detect_gesture rsqrt now (some hand)).2.prev_scroll_pos = none := by
  obtain ⟨b, heq⟩ := detect_gesture_no_click rsqrt d now hand hL hR
  rw [heq]
  unfold GestureDetector.scroll_cursor_step
  dsimp only
  rw [hpose]
  simp only [Bool.false_eq_true, if_false]
  split
  · rfl
  · rfl

/-- Witness for C5 amended: same detector and hand as the counterexample but
with the debounce gate closed, so no click fires; the midpoint is cleared. -/
theorem C5_amended_leaving_scroll_clears_witness :
    ({ wDet with prev_scroll_pos := some (1/2, 1/2) }.detect_gesture witSqrt 0
        (some handPinchLeft)).2.prev_scroll_pos = none :=
  C5_amended_leaving_scroll_clears witSqrt
    { wDet with prev_scroll_pos := some (1/2, 1/2) } 0 handPinchLeft
    (by decide) (by decide) (by decide)

/-- C10: click and scroll ticks return before the cursor-move branch and
leave the stored previous index position untouched; only a cursor-move tick
updates it (computing the velocity against the stored position, 0 when
absent); a no-gesture tick or a no-hand tick clears it. -/
theorem C10_prev_index_untouched_by_clicks (rsqrt : ℚ → ℚ) (d : GestureDetector)
    (now : ℚ) (hand : HandLandmarks) :
    (((d.detect_gesture rsqrt now (some hand)).1.1 = GestureType.LEFT_CLICK ∨
      (d.detect_gesture rsqrt now (some hand)).1.1 = GestureType.RIGHT_CLICK ∨
      (d.detect_gesture rsqrt now (some hand)).1.1 = GestureType.SCROLL) →
      (d.detect_gesture rsqrt now (some hand)).2.prev_index_pos = d.prev_index_pos) ∧
    ((d.detect_gesture rsqrt now (some hand)).1.1 = GestureType.CURSOR_MOVE →
      (d.detect_gesture rsqrt now (some hand)).2.prev_index_pos
        = some ((hand.get_landmark HandLandmarks.INDEX_FINGER_TIP).1,
                (hand.get_landmark HandLandmarks.INDEX_FINGER_TIP).2.1) ∧
      (d.detect_gesture rsqrt now (some hand)).1.2.velocity
        = some (match d.prev_index_pos with
            | none => 0
            | some prev =>
              rsqrt (((hand.get_landmark HandLandmarks.INDEX_FINGER_TIP).1 - prev.1) ^ 2
                + ((hand.get_landmark HandLandmarks.INDEX_FINGER_TIP).2.1 - prev.2) ^ 2))) ∧
    ((d.detect_gesture rsqrt now (some hand)).1.1 = GestureType.NONE →
      (d.detect_gesture rsqrt now (some hand)).2.prev_index_pos = none) ∧
    (d.detect_gesture rsqrt now none).2.prev_index_pos = none := by
  refine ⟨?_, ?_, ?_, rfl⟩ <;>
    (unfold GestureDetector.detect_gesture GestureDetector.after_left
      GestureDetector.scroll_cursor_step
     dsimp only
     repeat' split) <;>
    simp_all

/-- Witness for C10: a scroll tick leaves the stored index position intact,
and the next cursor-move tick measures its velocity against it. -/
theorem C10_prev_index_untouched_by_clicks_witness :
    ({ wDet with prev_index_pos := some (1/4, 1/4), prev_scroll_pos := some (2/5, 2/5) }.detect_gesture
        witSqrt 0 (some handScroll)).2.prev_index_pos = some (1/4, 1/4) :=
  ((C10_prev_index_untouched_by_clicks witSqrt
    { wDet with prev_index_pos := some (1/4, 1/4), prev_scroll_pos := some (2/5, 2/5) }
    0 handScroll).1 (by decide)).trans (by decide)

/-- Rounding to the nearest integer, halves up: the natural reading of the
spec's `round(...)`.  (The counterexample below evaluates it only at `1.625`,
which is not a half, so every nearest-integer convention — including Python's
banker's rounding — agrees there.) -/
def specRound (q : ℚ) : ℤ := ⌊q + 1/2⌋

/-- Modelled from the spec's words for `map_to_screen` (claim C6): margin
crop, clamp of the cropped coordinate to `[0,1]`, sensitivity-and-dimension
scaling, *rounding to the nearest integer*, clamp to the screen bounds. -/
def map_formula_round (c : MouseController) (x y : ℚ) : ℤ × ℤ :=
  (max 0 (min (c.screen_width - 1)
     (specRound (max 0 (min 1 ((x - c.margin) / (1 - 2 * c.margin)))
        * (c.screen_width : ℚ) * c.sensitivity))),
   max 0 (min (c.screen_height - 1)
     (specRound (max 0 (min 1 ((y - c.margin) / (1 - 2 * c.margin)))
        * (c.screen_height : ℚ) * c.sensitivity))))

/-- The same pipeline with the truncation toward zero that the code's
`int(...)` actually performs in place of rounding. -/
def map_formula_trunc (c : MouseController) (x y : ℚ) : ℤ × ℤ :=
  (max 0 (min (c.screen_width - 1)
     (pyInt (max 0 (min 1 ((x - c.margin) / (1 - 2 * c.margin)))
        * (c.screen_width : ℚ) * c.sensitivity))),
   max 0 (min (c.screen_height - 1)
     (pyInt (max 0 (min 1 ((y - c.margin) / (1 - 2 * c.margin)))
        * (c.screen_height : ℚ) * c.sensitivity))))

/-- Counterexample to C6 as stated: with margin `0.1`, sensitivity `1` and a
10-pixel screen, the input `x = y = 0.23` scales to `1.625`; `int()` truncates
it to `1` while the claimed `round(...)` gives `2`. -/
theorem C6_counterexample_int_is_not_round :
    MouseController.map_to_screen ⟨1, 1/10, 10, 10⟩ (23/100) (23/100) = (1, 1) ∧
    map_formula_round ⟨1, 1/10, 10, 10⟩ (23/100) (23/100) = (2, 2) := by
  decide

/-- C6 amended: `map_to_screen` is exactly the claimed pipeline — margin
crop, clamp to `[0,1]`, sensitivity-and-dimension scaling, then *truncation
toward zero* (Python `int()`, not rounding), then clamping to the screen
bounds, in that order. -/
theorem C6_map_formula (c : MouseController) (x y : ℚ) :
    c.map_to_screen x y = map_formula_trunc c x y := rfl

/-- C7: for inputs in `[0,1]²` and positive screen dimensions, the mapped
point lies within `[0, screen_width-1] × [0, screen_height-1]`, whatever the
sensitivity and margin. -/
theorem C7_map_to_screen_bounds (c : MouseController) (x y : ℚ)
    (hx0 : 0 ≤ x) (hx1 : x ≤ 1) (hy0 : 0 ≤ y) (hy1 : y ≤ 1)
    (hw : 0 < c.screen_width) (hh : 0 < c.screen_height) :
    0 ≤ (c.map_to_screen x y).1 ∧ (c.map_to_screen x y).1 ≤ c.screen_width - 1 ∧
    0 ≤ (c.map_to_screen x y).2 ∧ (c.map_to_screen x y).2 ≤ c.screen_height - 1 := by
  unfold MouseController.map_to_screen
  dsimp only
  exact ⟨le_max_left _ _, max_le (by omega) (min_le_left _ _),
         le_max_left _ _, max_le (by omega) (min_le_left _ _)⟩

/-- Witness for C7: a 1920×1080 screen with sensitivity `1.5` and the default
margin maps `(0.5, 0.5)` inside the screen bounds. -/
theorem C7_map_to_screen_bounds_witness :
    0 ≤ ((⟨3/2, 1/10, 1920, 1080⟩ : MouseController).map_to_screen (1/2) (1/2)).1 ∧
    ((⟨3/2, 1/10, 1920, 1080⟩ : MouseController).map_to_screen (1/2) (1/2)).1 ≤ 1920 - 1 ∧
    0 ≤ ((⟨3/2, 1/10, 1920, 1080⟩ : MouseController).map_to_screen (1/2) (1/2)).2 ∧
    ((⟨3/2, 1/10, 1920, 1080⟩ : MouseController).map_to_screen (1/2) (1/2)).2 ≤ 1080 - 1 :=
  C7_map_to_screen_bounds ⟨3/2, 1/10, 1920, 1080⟩ (1/2) (1/2)
    (by norm_num) (by norm_num) (by norm_num) (by norm_num) (by decide) (by decide)

/-- C8: after `reset()`, the next `update(v)` returns exactly `v` for every
filter: EMA, One-Euro (any timestamp) and Kalman return the input unchanged
from the unseeded state, and the moving average (window capacity ≥ 1, as the
spec's data model requires) returns `v` as the mean of its single-element
window. -/
theorem C8_reset_then_update_identity :
    (∀ (f : ExponentialMovingAverage) (v : ℚ), (f.reset.update v).1 = v) ∧
    (∀ (f : MovingAverageFilter) (v : ℚ), 1 ≤ f.maxlen →
      (f.reset.update v).1 = some v) ∧
    (∀ (f : OneEuroFilter) (v t : ℚ), f.reset.update v t
      = some (v, { f.reset with x_prev := some v, t_prev := some t })) ∧
    (∀ (f : KalmanFilter) (v : ℚ), (f.reset.update v).1 = v) := by
  refine ⟨fun f v => rfl, ?_, fun f v t => rfl, fun f v => rfl⟩
  intro f v h
  have hm : f.maxlen ≠ 0 := by omega
  simp [MovingAverageFilter.reset, MovingAverageFilter.update, dequeAppend, hm,
    Nat.le_zero]

/-- Witness for C8: each filter, reset from a seeded state, echoes `7`. -/
theorem C8_reset_then_update_identity_witness :
    ((⟨3/10, some 5⟩ : ExponentialMovingAverage).reset.update 7).1 = 7 ∧
    (1 ≤ (⟨5, 5, [1, 2]⟩ : MovingAverageFilter).maxlen ∧
      ((⟨5, 5, [1, 2]⟩ : MovingAverageFilter).reset.update 7).1 = some 7) ∧
    (⟨1, 7/1000, 1, some 3, 2, some 4⟩ : OneEuroFilter).reset.update 7 9
      = some (7, ⟨1, 7/1000, 1, some 7, 0, some 9⟩) ∧
    ((⟨1/100000, 1/10, some 3, 2⟩ : KalmanFilter).reset.update 7).1 = 7 :=
  ⟨C8_reset_then_update_identity.1 ⟨3/10, some 5⟩ 7,
   ⟨by decide, C8_reset_then_update_identity.2.1 ⟨5, 5, [1, 2]⟩ 7 (by decide)⟩,
   (C8_reset_then_update_identity.2.2.1 ⟨1, 7/1000, 1, some 3, 2, some 4⟩ 7 9).trans
     (by decide),
   C8_reset_then_update_identity.2.2.2 ⟨1/100000, 1/10, some 3, 2⟩ 7⟩

/-- A seeded `OneEuroFilter` with a consistent timestamp (the class keeps
`x_prev` and `t_prev` in lockstep) always produces a result, and the new
state keeps the lockstep invariant. -/
theorem one_euro_update_isSome (f : OneEuroFilter) (x t : ℚ)
    (h : f.x_prev.isSome = true → f.t_prev.isSome = true) :
    (f.update x t).isSome = true := by
  cases hx : f.x_prev with
  | none =>
    unfold OneEuroFilter.update
    rw [hx]
    rfl
  | some xp =>
    obtain ⟨tp, htp⟩ := Option.isSome_iff_exists.mp (h (by rw [hx]; rfl))
    unfold OneEuroFilter.update
    rw [hx, htp]
    rfl

/-- `update` writes `x_prev` and `t_prev` together, so the lockstep invariant
is preserved. -/
theorem one_euro_update_inv (f : OneEuroFilter) (x t y : ℚ) (f' : OneEuroFilter)
    (heq : f.update x t = some (y, f')) :
    f'.x_prev.isSome = true → f'.t_prev.isSome = true := by
  unfold OneEuroFilter.update at heq
  cases hx : f.x_prev with
  | none =>
    rw [hx] at heq
    simp only [Option.some.injEq, Prod.mk.injEq] at heq
    obtain ⟨-, h2⟩ := heq
    subst h2
    intro _
    rfl
  | some xp =>
    rw [hx] at heq
    cases htp : f.t_prev with
    | none =>
      rw [htp] at heq
      exact absurd heq (by simp)
    | some tp =>
      rw [htp] at heq
      simp only [Option.some.injEq, Prod.mk.injEq] at heq
      obtain ⟨-, h2⟩ := heq
      subst h2
      intro _
      rfl

/-- C9: the One-Euro update never divides by zero: a non-positive time delta
is replaced by the epsilon `0.001` before the derivative divides by it, the
effective delta is always positive, and driving the filter over any
`(value, timestamp)` stream — monotone or not — always produces a result. -/
theorem C9_one_euro_total :
    (∀ tp t : ℚ, t - tp ≤ 0 → OneEuroFilter.one_euro_dt tp t = 1/1000) ∧
    (∀ tp t : ℚ, 0 < OneEuroFilter.one_euro_dt tp t) ∧
    (∀ (f : OneEuroFilter) (xs : List (ℚ × ℚ)),
      (f.x_prev.isSome = true → f.t_prev.isSome = true) →
      (f.run xs).isSome = true) := by
  refine ⟨?_, ?_, ?_⟩
  · intro tp t h
    unfold OneEuroFilter.one_euro_dt
    dsimp only
    rw [if_pos h]
  · intro tp t
    unfold OneEuroFilter.one_euro_dt
    dsimp only
    split
    · norm_num
    · next h => linarith [lt_of_not_le h]
  · intro f xs
    induction xs generalizing f with
    | nil => intro _; rfl
    | cons p rest ih =>
      intro hinv
      obtain ⟨x, t⟩ := p
      obtain ⟨⟨y, f'⟩, heq⟩ :=
        Option.isSome_iff_exists.mp (one_euro_update_isSome f x t hinv)
      have hinv' := one_euro_update_inv f x t y f' heq
      have htail := ih f' hinv'
      obtain ⟨⟨ys, f''⟩, hr⟩ := Option.isSome_iff_exists.mp htail
      simp only [OneEuroFilter.run, heq, hr]
      rfl

/-- Witness for C9: a zero time delta is floored to `0.001`; a backwards
delta still yields a positive divisor; a fresh filter survives a
non-increasing timestamp stream. -/
theorem C9_one_euro_total_witness :
    OneEuroFilter.one_euro_dt 5 5 = 1/1000 ∧
    0 < OneEuroFilter.one_euro_dt 5 4 ∧
    ((OneEuroFilter.init 1 (7/1000) 1).run [(5, 1), (6, 1), (7, 0)]).isSome = true :=
  ⟨C9_one_euro_total.1 5 5 (by norm_num),
   C9_one_euro_total.2.1 5 4,
   C9_one_euro_total.2.2 (OneEuroFilter.init 1 (7/1000) 1) [(5, 1), (6, 1), (7, 0)]
     (by decide)⟩

end GestureMouse
